import Mathlib

/-!
Verification of the Keysight B1500 driver
(`qcodes/instrument_drivers/Keysight/keysightb1500/KeysightB1500_base.py`).

The Python source is shallowly embedded: pure computations become Lean
functions on `ℚ` / `ℤ` / `List`, fallible operations return `Except`, and
the stateful sweep procedure `IVSweepMeasurement.get_raw` becomes a function
from an environment (the device/transport behaviour observed during one run)
to the trace of issued commands together with the final outcome.
-/

namespace B1500

/-! ## Sweep timeout computation (`IVSweepMeasurement.get_raw`, lines 473-485)

`SMUState` packages the attributes of the sweep-source module that the
timeout computation reads: `smu._average_coefficient`,
`smu.power_line_frequency`, `smu.iv_sweep.step_delay()`,
`smu.iv_sweep.sweep_steps()` and `smu.setup_fnc_already_run`.
Python floats are modelled as rationals. -/

structure SMUState where
  average_coefficient : ℚ
  power_line_frequency : ℚ
  step_delay : ℚ
  sweep_steps : ℕ
  setup_fnc_already_run : Bool
deriving DecidableEq

/-- Lines 474-482: `calculated_time`.  A negative averaging coefficient
means NPLC mode (`nplc = 128 * abs(coeff)`, one power-line period is
`1 / power_line_frequency`); a non-negative one is a plain multiplier of
the per-step delay. -/
def calculated_time (smu : SMUState) : ℚ :=
  if smu.average_coefficient < 0 then
    let nplc := 128 * |smu.average_coefficient|
    let power_line_time_period := 1 / smu.power_line_frequency
    2 * nplc * power_line_time_period
  else
    smu.average_coefficient * smu.step_delay

/-- `IVSweepMeasurement._fudge` (line 458). -/
def fudge : ℚ := 3 / 2

/-- Lines 483-485: `new_timeout = max(delay_time, calculated_time) *
num_steps * self._fudge`. -/
def new_timeout (smu : SMUState) : ℚ :=
  max smu.step_delay (calculated_time smu) * (smu.sweep_steps : ℚ) * fudge

/-- The timeout formula as the specification words it, for comparison with
the implementation's `new_timeout`. -/
def spec_effective_time (coefficient line_frequency step_delay : ℚ) : ℚ :=
  if coefficient < 0 then 2 * (128 * |coefficient|) * (1 / line_frequency)
  else coefficient * step_delay

/-- `timeout = max(step_delay, effective_time) * step_count * 1.5`, again as
the specification words it. -/
def spec_timeout (coefficient line_frequency step_delay : ℚ)
    (step_count : ℕ) : ℚ :=
  max step_delay (spec_effective_time coefficient line_frequency step_delay)
    * (step_count : ℚ) * (1.5 : ℚ)

/-! ## `KeysightB1500.write` (lines 66-75)

After delegating to the transport, `write` polls the error queue once and
compares the response with the literal `'+0,"No Error."'`; on any other
response it raises `RuntimeError` with the full message text.  The model
takes the polled error-queue response as an argument and returns the wire
operations performed plus the outcome. -/

inductive WireOp where
  | write (cmd : String)
  | errorPoll
deriving DecidableEq

/-- The sentinel `write` compares against (line 73): note the leading `+`. -/
def no_error_sentinel : String := "+0,\"No Error.\""

/-- Lines 66-75: `KeysightB1500.write`. -/
def b1500_write (cmd : String) (error_message : String) :
    List WireOp × Except String Unit :=
  ([WireOp.write cmd, WireOp.errorPoll],
   if error_message = no_error_sentinel then Except.ok ()
   else Except.error
     ("While setting this parameter received error: " ++ error_message))

/-! ## Module registry (`KeysightB1500.add_module`, lines 77-83)

A module carries its slot number, channel numbers and module kind
(`B1500Module.MODULE_KIND`); `id` stands in for Python object identity so
that distinct modules are distinguishable.  `add_module` appends to
`by_kind[kind]`, assigns `by_slot[slot]` and assigns `by_channel[ch]` for
each of the module's channels — plain `dict` assignment, so an existing
entry is overwritten, never rejected. -/

structure Module where
  id : ℕ
  slot_nr : ℕ
  channels : List ℤ
  module_kind : ℕ
deriving DecidableEq

structure Registry where
  by_slot : ℕ → Option Module
  by_channel : ℤ → Option Module
  by_kind : ℕ → List Module

/-- Lines 77-83: `KeysightB1500.add_module`.  The `for` loop writes
`by_channel[ch] = module` for every `ch` in `module.channels`; its net
effect is the pointwise update below. -/
def add_module (r : Registry) (m : Module) : Registry where
  by_slot := fun s => if s = m.slot_nr then some m else r.by_slot s
  by_channel := fun c => if c ∈ m.channels then some m else r.by_channel c
  by_kind := fun k => if k = m.module_kind then r.by_kind k ++ [m]
    else r.by_kind k

/-- The registry as initialised in `__init__` (lines 27-29): all three
indices empty. -/
def emptyRegistry : Registry where
  by_slot := fun _ => none
  by_channel := fun _ => none
  by_kind := fun _ => []

/-! ## Tagged-field response parsing (lines 364-405)

`get_measurement_mode` matches `re.search('MM(?P<mode>.*?),(?P<channels>.*?)(;|$)', response)`
and `get_response_format_and_mode` the same pattern with tag `FMT`.  For
newline-free responses (instrument responses are single lines, the `\r\n`
terminator already stripped) the leftmost-lazy semantics of that pattern
are: find the first occurrence of the tag that is followed by a comma;
the first group is everything up to that first comma, the second group
everything from there up to the first `;` if any, else to the end. -/

/-- `leadsWith pat l` is true when `pat` is an initial segment of `l`. -/
def leadsWith : List Char → List Char → Bool
  | [], _ => true
  | _ :: _, [] => false
  | a :: as, b :: bs => a == b && leadsWith as bs

/-- `occursIn pat l`: `pat` occurs as a contiguous run somewhere in `l`. -/
def occursIn (pat : List Char) : List Char → Bool
  | [] => leadsWith pat []
  | c :: tl => leadsWith pat (c :: tl) || occursIn pat tl

/-- Split at the first occurrence of `sep`: `some (before, after)`, or
`none` when `sep` does not occur. -/
def splitAtFirst (sep : Char) : List Char → Option (List Char × List Char)
  | [] => none
  | c :: tl =>
    if c == sep then some ([], tl)
    else (splitAtFirst sep tl).map (fun p => (c :: p.1, p.2))

/-- Everything up to the first `;`, or the whole list when there is none
(the `(;|$)` tail of the regex). -/
def upToSemicolon (l : List Char) : List Char :=
  match splitAtFirst ';' l with
  | some p => p.1
  | none => l

/-- Leftmost-lazy search for `tag ++ group1 ++ "," ++ group2 ++ (";"|end)`:
the two captured groups of the Python pattern, or `none` when the pattern
does not match. -/
def searchTag (tag : List Char) : List Char → Option (List Char × List Char)
  | [] => none
  | c :: tl =>
    if leadsWith tag (c :: tl) then
      match splitAtFirst ',' ((c :: tl).drop tag.length) with
      | some p => some (p.1, upToSemicolon p.2)
      | none => searchTag tag tl
    else searchTag tag tl

/-- Digit run to a number; `none` on the empty run or a non-digit. -/
def digitsToNat : List Char → ℕ → Option ℕ
  | [], acc => some acc
  | c :: tl, acc =>
    if c.isDigit then digitsToNat tl (acc * 10 + (c.toNat - 48)) else none

/-- Python `int(str)`: optional sign followed by at least one digit
(whitespace/underscore forms are not exercised here). -/
def strToInt : List Char → Option ℤ
  | [] => none
  | '-' :: tl =>
    if tl = [] then none else (digitsToNat tl 0).map (fun n => -(n : ℤ))
  | '+' :: tl =>
    if tl = [] then none else (digitsToNat tl 0).map (fun n => (n : ℤ))
  | l => (digitsToNat l 0).map (fun n => (n : ℤ))

/-- Python `str.split(sep)` for a one-character separator: `"".split(",")`
is `[""]`. -/
def splitOnChar (sep : Char) : List Char → List (List Char)
  | [] => [[]]
  | c :: tl =>
    if c == sep then [] :: splitOnChar sep tl
    else
      match splitOnChar sep tl with
      | [] => [[c]]
      | h :: t => (c :: h) :: t

/-- Result of `get_measurement_mode` (lines 379-383): the numeric mode
(wrapped in `constants.MM.Mode`, which is the identity on the code value)
and the channel list. -/
structure MMParse where
  mode : ℤ
  channels : List ℤ
deriving DecidableEq

/-- Result of `get_response_format_and_mode` (lines 399-405): numeric
format and mode codes (`constants.FMT.Format` / `constants.FMT.Mode` wrap
the code values). -/
structure FMTParse where
  format : ℤ
  mode : ℤ
deriving DecidableEq

/-- Lines 373-383: the parsing part of `get_measurement_mode` applied to
the already-received response text.  A failed `re.search` raises
`ValueError('Measurement Mode (MM) not found.')`. -/
def parse_measurement_mode (response : List Char) : Except String MMParse :=
  match searchTag ['M', 'M'] response with
  | none => Except.error "Measurement Mode (MM) not found."
  | some g =>
    match strToInt g.1 with
    | none => Except.error "invalid literal for int()"
    | some m =>
      match (splitOnChar ',' g.2).mapM strToInt with
      | none => Except.error "invalid literal for int()"
      | some chs => Except.ok ⟨m, chs⟩

/-- Lines 392-405: the parsing part of `get_response_format_and_mode`.
A failed `re.search` raises `ValueError('Measurement Mode (FMT) not
found.')` (sic — the message says "Measurement Mode"). -/
def parse_format_and_mode (response : List Char) : Except String FMTParse :=
  match searchTag ['F', 'M', 'T'] response with
  | none => Except.error "Measurement Mode (FMT) not found."
  | some g =>
    match strToInt g.1, strToInt g.2 with
    | some f, some m => Except.ok ⟨f, m⟩
    | _, _ => Except.error "invalid literal for int()"

/-- Modelled from the spec: `MessageBuilder.mm` (the command encoder lives
in `message_builder.py`, which is not under `src/`).  Per the spec's
interface section the measurement-mode command is
`MM<mode>,<channels>` with the channels comma-joined in order. -/
def mm_message (mode : ℤ) (channels : List ℤ) : String :=
  "MM" ++ toString mode ++ "," ++
    String.intercalate "," (channels.map toString)

/-! ## Integration-time setup (`_setup_integration_time`, lines 166-177)

The method truncates a supplied coefficient with Python `int()` and then
builds the `AIT` command with `MessageBuilder.ait` before the single
`write`.  `MessageBuilder` (in `message_builder.py`) is not under `src/`,
so `ait` below is modelled from the spec. -/

/-- Python `int()` on a rational: truncation toward zero. -/
def pyInt (q : ℚ) : ℤ := q.num.tdiv (q.den : ℤ)

/-- The two `constants.AIT.Mode` values whose coefficient ranges the spec
documents. -/
inductive AITMode where
  | manual
  | nplc
deriving DecidableEq

inductive EncoderError where
  | invalidParameter
deriving DecidableEq

/-- The documented coefficient range per mode: 1-1023 for manual
averaging, 1-100 for NPLC averaging. -/
def ait_coeff_range (mode : AITMode) : ℤ × ℤ :=
  match mode with
  | AITMode.manual => (1, 1023)
  | AITMode.nplc => (1, 100)

/-- Modelled from the spec: `MessageBuilder.ait` (not under `src/`).  Per
the spec, an optional integer coefficient must lie within the command's
documented range and an out-of-range value fails with `InvalidParameter`
before any transmission; in-range input serialises to the `AIT` command
string. -/
def ait (adc_type : ℤ) (mode : AITMode) (coeff : Option ℤ) :
    Except EncoderError String :=
  let modeCode : ℤ := match mode with | AITMode.manual => 1 | AITMode.nplc => 2
  match coeff with
  | none => Except.ok ("AIT " ++ toString adc_type ++ "," ++ toString modeCode)
  | some c =>
    let range := ait_coeff_range mode
    if range.1 ≤ c ∧ c ≤ range.2 then
      Except.ok ("AIT " ++ toString adc_type ++ "," ++ toString modeCode
        ++ "," ++ toString c)
    else Except.error EncoderError.invalidParameter

/-- Lines 166-177: `_setup_integration_time`.  Returns the transport calls
made (the single `write`, when reached) and the outcome.  When the encoder
fails, the failure happens while building the message, so `write` is never
reached and the trace is empty. -/
def setup_integration_time (adc_type : ℤ) (mode : AITMode)
    (coeff : Option ℚ) : List String × Except EncoderError Unit :=
  let coeffInt := coeff.map pyInt
  match ait adc_type mode coeffInt with
  | Except.error e => ([], Except.error e)
  | Except.ok msg => ([msg], Except.ok ())

/-! ## The sweep run (`IVSweepMeasurement.get_raw`, lines 460-509)

The run is modelled as a function of an `Env` capturing what the device
and transport do during this one run: the outcomes of the two
configuration reads, the channel-to-module index, and the outcomes of the
`FMT 1,1` write, the blocking `XE` query and the response parse
(`fmt_response_base_parser` lives in `KeysightB1500_module.py`, not under
`src/`, so its outcome is part of the environment).  The function returns
the trace of sweep-phase commands issued (`FMT` writes and the `XE` query
with the timeout it runs under) together with the final outcome. -/

inductive PyErr where
  /-- `ValueError('Two measurement channels are needed, ...')`, line 463. -/
  | invalidSweepConfiguration
  /-- `Exception('Sweep setup has not yet been run successfully ...')`,
  line 470. -/
  | sweepNotConfigured
  /-- `KeyError` from the `by_channel` dict lookup, line 467. -/
  | keyError
  /-- `ValueError` from a failed tagged-field match (lines 377, 397). -/
  | protocolMismatch
  /-- `RuntimeError` raised by `KeysightB1500.write`'s error-queue check. -/
  | writeError
  /-- VISA timeout while blocking on the `XE` query. -/
  | visaTimeout
  /-- Parse failure in `fmt_response_base_parser`. -/
  | malformedResponse
deriving DecidableEq

inductive Cmd where
  /-- A `write` of `FMT <format>,<mode>` (lines 491, 496-497). -/
  | fmtCmd (format mode : ℤ)
  /-- The blocking `ask` of `XE` and the timeout it is issued under
  (lines 492-493). -/
  | xeCmd (timeout : ℚ)
deriving DecidableEq

/-- `_FMTResponse`: four parallel sequences (value, status, channel,
type), one entry per reading. -/
structure FMTResponse where
  value : List ℚ
  status : List ℕ
  channel : List ℕ
  type : List ℕ
deriving DecidableEq

/-- Take the head, then every `stride`-th element after it: `skip` counts
the elements still to drop before the next kept one. -/
def everyNth {α : Type} (stride : ℕ) : ℕ → List α → List α
  | _, [] => []
  | 0, a :: tl => a :: everyNth stride (stride - 1) tl
  | k + 1, _ :: tl => everyNth stride k tl

/-- Python slice `l[start::stride]`: elements at indices `start`,
`start + stride`, `start + 2*stride`, ... -/
def pySlice {α : Type} (l : List α) (start stride : ℕ) : List α :=
  everyNth stride 0 (l.drop start)

/-- Lines 499-504: `_FMTResponse(*[parsed_data[i][off::3] for i in
range(0, 4)])`. -/
def deinterleave3 (r : FMTResponse) (off : ℕ) : FMTResponse where
  value := pySlice r.value off 3
  status := pySlice r.status off 3
  channel := pySlice r.channel off 3
  type := pySlice r.type off 3

/-- What the run leaves behind: `self.param1`, `self.param2`,
`self.source_voltage` (the return value is `(param1.value,
param2.value)`). -/
structure Output where
  param1 : FMTResponse
  param2 : FMTResponse
  source_voltage : FMTResponse
deriving DecidableEq

structure Env where
  /-- Outcome of `self.instrument.get_measurement_mode()` (line 461). -/
  mm_read : Except PyErr MMParse
  /-- The mainframe's `by_channel` index (line 467). -/
  by_channel : ℤ → Option SMUState
  /-- Outcome of `get_response_format_and_mode()` (line 487). -/
  fmt_read : Except PyErr FMTParse
  /-- Outcome of `write(FMT 1,1)` including its error-queue check. -/
  write_fmt11 : Except PyErr Unit
  /-- Outcome of the blocking `ask(XE)` (raw data, or a timeout). -/
  ask_xe : Except PyErr String
  /-- Outcome of `fmt_response_base_parser` on the raw data. -/
  parse_fmt : String → Except PyErr FMTResponse
  /-- Outcome of the restoring `write(FMT format,mode)` in `finally`. -/
  write_restore : Except PyErr Unit

/-- Lines 490-494, the `try` block: the `FMT 1,1` write reaches the wire
even when its error-queue check then raises; the `XE` query is issued
under `new_timeout` and may time out; the response may fail to parse. -/
def try_body (env : Env) (tmo : ℚ) : List Cmd × Except PyErr FMTResponse :=
  match env.write_fmt11 with
  | Except.error e => ([Cmd.fmtCmd 1 1], Except.error e)
  | Except.ok _ =>
    match env.ask_xe with
    | Except.error e => ([Cmd.fmtCmd 1 1, Cmd.xeCmd tmo], Except.error e)
    | Except.ok raw =>
      match env.parse_fmt raw with
      | Except.error e => ([Cmd.fmtCmd 1 1, Cmd.xeCmd tmo], Except.error e)
      | Except.ok parsed => ([Cmd.fmtCmd 1 1, Cmd.xeCmd tmo], Except.ok parsed)

/-- Lines 460-509: `IVSweepMeasurement.get_raw`.  Validation (channel
count, channel resolution, sweep-setup flag) precedes everything; the
timeout is computed next; the format/mode pair is read; then the `try`
block runs and the `finally` block unconditionally issues the restoring
`FMT` write.  Per Python semantics an exception raised in the `finally`
write replaces the body's exception; otherwise the body's outcome stands,
and on success the parsed data is de-interleaved with stride 3 at offsets
0, 1, 2. -/
def get_raw (env : Env) : List Cmd × Except PyErr Output :=
  match env.mm_read with
  | Except.error e => ([], Except.error e)
  | Except.ok mm =>
    if mm.channels.length ≠ 2 then
      ([], Except.error PyErr.invalidSweepConfiguration)
    else
      match env.by_channel mm.channels.headI with
      | none => ([], Except.error PyErr.keyError)
      | some smu =>
        if smu.setup_fnc_already_run = false then
          ([], Except.error PyErr.sweepNotConfigured)
        else
          let tmo := new_timeout smu
          match env.fmt_read with
          | Except.error e => ([], Except.error e)
          | Except.ok fm =>
            let body := try_body env tmo
            let trace := body.1 ++ [Cmd.fmtCmd fm.format fm.mode]
            match env.write_restore with
            | Except.error ef => (trace, Except.error ef)
            | Except.ok _ =>
              match body.2 with
              | Except.error e => (trace, Except.error e)
              | Except.ok parsed =>
                (trace, Except.ok
                  ⟨deinterleave3 parsed 0, deinterleave3 parsed 1,
                   deinterleave3 parsed 2⟩)

/-! ## Concrete run environments used by the witnesses -/

/-- A sweep-source module with trivial timing values and completed setup. -/
def smu0 : SMUState := ⟨1, 50, 1, 1, true⟩

/-- A fully successful run: valid two-channel mode, channel 3 resolving to
`smu0`, saved format/mode `(5, 0)`, and every transport step succeeding
with empty parsed data. -/
def env0 : Env where
  mm_read := Except.ok ⟨1, [3, 5]⟩
  by_channel := fun c => if c = 3 then some smu0 else none
  fmt_read := Except.ok ⟨5, 0⟩
  write_fmt11 := Except.ok ()
  ask_xe := Except.ok "raw"
  parse_fmt := fun _ => Except.ok ⟨[], [], [], []⟩
  write_restore := Except.ok ()

/-! ## Claims -/

/-- C1: on every sweep run that reaches the execute phase, the blocking
`XE` query is issued under `new_timeout`, which equals the spec's
deterministic formula (`effective_time = 2*(128*|coeff|)*(1/line_freq)`
for a negative coefficient, else `coeff * step_delay`; `timeout =
max(step_delay, effective_time) * step_count * 1.5`); in particular
coefficient `-2`, line frequency `50`, step delay `0.01`, `100` steps
gives `1536.0`, and coefficient `4`, step delay `0.02`, `50` steps gives
`6.0`. -/
theorem C1_sweep_timeout (env : Env) (mm : MMParse) (smu : SMUState)
    (fm : FMTParse)
    (hmm : env.mm_read = Except.ok mm)
    (hlen : mm.channels.length = 2)
    (hsmu : env.by_channel mm.channels.headI = some smu)
    (hrun : smu.setup_fnc_already_run = true)
    (hfm : env.fmt_read = Except.ok fm)
    (hw : env.write_fmt11 = Except.ok ()) :
    Cmd.xeCmd (new_timeout smu) ∈ (get_raw env).1
    ∧ (∀ s : SMUState, new_timeout s = spec_timeout s.average_coefficient
        s.power_line_frequency s.step_delay s.sweep_steps)
    ∧ new_timeout ⟨-2, 50, 1 / 100, 100, true⟩ = 1536
    ∧ new_timeout ⟨4, 50, 2 / 100, 50, true⟩ = 6 := by
  refine ⟨?_, fun s => ?_, ?_, ?_⟩
  · simp only [get_raw, hmm, hlen, hsmu, hrun, hfm, try_body, hw, ne_eq,
      Bool.true_eq_false, if_false, not_true_eq_false]
    rcases ha : env.ask_xe with e | raw
    · rcases hr : env.write_restore with ef | u <;> simp [ha, hr]
    · rcases hp : env.parse_fmt raw with e2 | parsed <;>
        rcases hr : env.write_restore with ef | u <;> simp [ha, hp, hr]
  · unfold new_timeout spec_timeout calculated_time spec_effective_time fudge
    norm_num
  · unfold new_timeout calculated_time fudge
    norm_num
  · unfold new_timeout calculated_time fudge
    norm_num

/-- Witness for C1 at the concrete successful run `env0`. -/
theorem C1_sweep_timeout_witness :
    Cmd.xeCmd (new_timeout smu0) ∈ (get_raw env0).1
    ∧ (∀ s : SMUState, new_timeout s = spec_timeout s.average_coefficient
        s.power_line_frequency s.step_delay s.sweep_steps)
    ∧ new_timeout ⟨-2, 50, 1 / 100, 100, true⟩ = 1536
    ∧ new_timeout ⟨4, 50, 2 / 100, 50, true⟩ = 6 :=
  C1_sweep_timeout env0 ⟨1, [3, 5]⟩ smu0 ⟨5, 0⟩ rfl rfl rfl rfl rfl rfl

/-- The `try` block issues `FMT 1,1` always, and the `XE` query in every
branch after that write's error check passed. -/
theorem try_body_trace_cases (env : Env) (tmo : ℚ) :
    (try_body env tmo).1 = [Cmd.fmtCmd 1 1]
    ∨ (try_body env tmo).1 = [Cmd.fmtCmd 1 1, Cmd.xeCmd tmo] := by
  unfold try_body
  rcases hw : env.write_fmt11 with e | u
  · exact Or.inl (by simp [hw])
  · rcases ha : env.ask_xe with e | raw
    · exact Or.inr (by simp [hw, ha])
    · rcases hp : env.parse_fmt raw with e | p
      · exact Or.inr (by simp [hw, ha, hp])
      · exact Or.inr (by simp [hw, ha, hp])

/-- C2: once the pre-sweep format/mode pair has been read, the command
trace is exactly the `try`-block trace followed by one restoring
`FMT format,mode` write — so the restore is issued exactly once, after
execution, on every exit path (including a timeout or parse failure in
the execute phase, when the body's trace still ends in the restore); when
the saved pair differs from the forced `(1,1)` the restore command occurs
exactly once in the whole trace; and when the restoring write succeeds,
the body's original error is the outcome surfaced to the caller. -/
theorem C2_format_restore (env : Env) (mm : MMParse) (smu : SMUState)
    (fm : FMTParse)
    (hmm : env.mm_read = Except.ok mm)
    (hlen : mm.channels.length = 2)
    (hsmu : env.by_channel mm.channels.headI = some smu)
    (hrun : smu.setup_fnc_already_run = true)
    (hfm : env.fmt_read = Except.ok fm) :
    (get_raw env).1 =
      (try_body env (new_timeout smu)).1 ++ [Cmd.fmtCmd fm.format fm.mode]
    ∧ (fm ≠ ⟨1, 1⟩ →
        (get_raw env).1.count (Cmd.fmtCmd fm.format fm.mode) = 1)
    ∧ (∀ e : PyErr, env.write_restore = Except.ok () →
        (try_body env (new_timeout smu)).2 = Except.error e →
        (get_raw env).2 = Except.error e) := by
  have htr : (get_raw env).1 =
      (try_body env (new_timeout smu)).1
        ++ [Cmd.fmtCmd fm.format fm.mode] := by
    simp only [get_raw, hmm, hlen, hsmu, hrun, hfm, ne_eq,
      Bool.true_eq_false, if_false, not_true_eq_false]
    rcases hr : env.write_restore with ef | u
    · simp [hr]
    · rcases hb : (try_body env (new_timeout smu)).2 with e | p <;>
        simp [hr, hb]
  refine ⟨htr, ?_, ?_⟩
  · intro hne
    rw [htr, List.count_append]
    have hinj : (Cmd.fmtCmd fm.format fm.mode = Cmd.fmtCmd 1 1) ↔ False := by
      constructor
      · intro h
        apply hne
        cases fm
        simpa [Cmd.fmtCmd.injEq] using h
      · exact False.elim
    rcases try_body_trace_cases env (new_timeout smu) with h1 | h1 <;>
      simp [h1, List.count_cons, List.count_singleton, hinj]
  · intro e hr hb
    simp only [get_raw, hmm, hlen, hsmu, hrun, hfm, ne_eq,
      Bool.true_eq_false, if_false, not_true_eq_false]
    simp [hr, hb]

/-- A run identical to `env0` except that the blocking `XE` query times
out: the scenario of the restoration claims. -/
def env1 : Env := { env0 with ask_xe := Except.error PyErr.visaTimeout }

/-- Witness for C2 at the timed-out run `env1` (saved pair `(5,0)`). -/
theorem C2_format_restore_witness :
    ((get_raw env1).1 =
      (try_body env1 (new_timeout smu0)).1 ++ [Cmd.fmtCmd 5 0]
    ∧ ((⟨5, 0⟩ : FMTParse) ≠ ⟨1, 1⟩ →
        (get_raw env1).1.count (Cmd.fmtCmd 5 0) = 1)
    ∧ (∀ e : PyErr, env1.write_restore = Except.ok () →
        (try_body env1 (new_timeout smu0)).2 = Except.error e →
        (get_raw env1).2 = Except.error e)) :=
  C2_format_restore env1 ⟨1, [3, 5]⟩ smu0 ⟨5, 0⟩ rfl rfl rfl rfl rfl

/-- C4 (amended): de-interleaving uses stride 3 at offsets 0, 1, 2, so a
raw length of 9 splits into three length-3 subsequences; but a raw length
that is not a multiple of 3 is not rejected — Python slicing silently
produces ragged subsequences (for length 8: lengths 3, 3 and 2) and the
run does not fail with `MalformedResponse`. -/
theorem C4_stride_three (a0 a1 a2 a3 a4 a5 a6 a7 a8 : ℚ) :
    (pySlice [a0, a1, a2, a3, a4, a5, a6, a7, a8] 0 3 = [a0, a3, a6]
    ∧ pySlice [a0, a1, a2, a3, a4, a5, a6, a7, a8] 1 3 = [a1, a4, a7]
    ∧ pySlice [a0, a1, a2, a3, a4, a5, a6, a7, a8] 2 3 = [a2, a5, a8])
    ∧ (pySlice [a0, a1, a2, a3, a4, a5, a6, a7] 0 3 = [a0, a3, a6]
    ∧ pySlice [a0, a1, a2, a3, a4, a5, a6, a7] 1 3 = [a1, a4, a7]
    ∧ pySlice [a0, a1, a2, a3, a4, a5, a6, a7] 2 3 = [a2, a5]) :=
  ⟨⟨rfl, rfl, rfl⟩, ⟨rfl, rfl, rfl⟩⟩

/-- A run whose parsed sweep data has raw length 8 in all four parallel
sequences. -/
def fmt8 : FMTResponse :=
  ⟨[0, 1, 2, 3, 4, 5, 6, 7], [0, 1, 2, 3, 4, 5, 6, 7],
   [0, 1, 2, 3, 4, 5, 6, 7], [0, 1, 2, 3, 4, 5, 6, 7]⟩

def env8 : Env := { env0 with parse_fmt := fun _ => Except.ok fmt8 }

/-- Counterexample for C4: with raw decoded length 8 (not a multiple of
3) the sweep does not fail with `MalformedResponse` — it returns
normally, with ragged de-interleaved traces of lengths 3, 3 and 2. -/
theorem C4_counterexample :
    (get_raw env8).2 = Except.ok
      ⟨⟨[0, 3, 6], [0, 3, 6], [0, 3, 6], [0, 3, 6]⟩,
       ⟨[1, 4, 7], [1, 4, 7], [1, 4, 7], [1, 4, 7]⟩,
       ⟨[2, 5], [2, 5], [2, 5], [2, 5]⟩⟩ := rfl

/-- C6: a measurement mode that does not list exactly two channels makes
the run fail with the two-channels `ValueError`, and an unfinished sweep
setup on the resolved sweep-source module makes it fail with the
setup-not-run `Exception`; in both cases the command trace is empty, so
the failure precedes transmission of the sweep-execute command. -/
theorem C6_validation_before_execute (env : Env) (mm : MMParse)
    (smu : SMUState) :
    (env.mm_read = Except.ok mm → mm.channels.length ≠ 2 →
      get_raw env = ([], Except.error PyErr.invalidSweepConfiguration))
    ∧ (env.mm_read = Except.ok mm → mm.channels.length = 2 →
        env.by_channel mm.channels.headI = some smu →
        smu.setup_fnc_already_run = false →
        get_raw env = ([], Except.error PyErr.sweepNotConfigured)) := by
  constructor
  · intro hmm hlen
    simp [get_raw, hmm, hlen]
  · intro hmm hlen hsmu hrun
    simp [get_raw, hmm, hlen, hsmu, hrun]

/-- A run whose measurement mode lists a single channel. -/
def envOneChannel : Env := { env0 with mm_read := Except.ok ⟨1, [3]⟩ }

/-- A sweep-source module whose one-time sweep setup has not run. -/
def smuNoSetup : SMUState := ⟨1, 50, 1, 1, false⟩

/-- A run whose channels resolve to a module with unfinished setup. -/
def envNoSetup : Env :=
  { env0 with by_channel := fun c => if c = 3 then some smuNoSetup else none }

/-- Witness for C6: one channel only, and unfinished sweep setup. -/
theorem C6_validation_before_execute_witness :
    get_raw envOneChannel
      = ([], Except.error PyErr.invalidSweepConfiguration)
    ∧ get_raw envNoSetup = ([], Except.error PyErr.sweepNotConfigured) :=
  ⟨(C6_validation_before_execute envOneChannel ⟨1, [3]⟩ smu0).1 rfl
      (by decide),
   (C6_validation_before_execute envNoSetup ⟨1, [3, 5]⟩ smuNoSetup).2 rfl
      rfl rfl rfl⟩

/-- Counterexample for C3: the code's sentinel carries a leading `+`
(line 73), so the claimed no-error response `0,"No Error."` does not make
the write succeed — it raises. -/
theorem C3_counterexample :
    (b1500_write "CN" "0,\"No Error.\"").2
      = Except.error ("While setting this parameter received error: "
          ++ "0,\"No Error.\"") := rfl

/-- C3 (amended): every outbound command is one transport write followed
by one error-queue poll; the write succeeds iff the polled response
equals the literal sentinel `+0,"No Error."` (with the leading `+`), and
any other response raises an error carrying the full message text. -/
theorem C3_write_error_poll (cmd em : String) :
    (b1500_write cmd em).1 = [WireOp.write cmd, WireOp.errorPoll]
    ∧ ((b1500_write cmd em).2 = Except.ok () ↔ em = no_error_sentinel)
    ∧ (em ≠ no_error_sentinel →
        (b1500_write cmd em).2 = Except.error
          ("While setting this parameter received error: " ++ em)) := by
  refine ⟨rfl, ?_, ?_⟩
  · by_cases h : em = no_error_sentinel <;> simp [b1500_write, h]
  · intro h
    simp [b1500_write, h]

/-- Witness for C3 at a concrete non-sentinel error response. -/
theorem C3_write_error_poll_witness :
    ("305,\"Excess current in HPSMU.\"" ≠ no_error_sentinel)
    ∧ (b1500_write "CN" "305,\"Excess current in HPSMU.\"").2
        = Except.error ("While setting this parameter received error: "
            ++ "305,\"Excess current in HPSMU.\"") :=
  ⟨by decide,
   (C3_write_error_poll "CN" "305,\"Excess current in HPSMU.\"").2.2
     (by decide)⟩

/-- Counterexample for C5: registering a second module that claims an
already-registered channel does not fail — `add_module` returns normally
and the `by_channel` entry is silently overwritten by the newer module. -/
theorem C5_counterexample :
    (add_module (add_module emptyRegistry ⟨0, 1, [1], 0⟩)
        ⟨1, 2, [1], 0⟩).by_channel 1 = some ⟨1, 2, [1], 0⟩
    ∧ (⟨1, 2, [1], 0⟩ : Module) ≠ ⟨0, 1, [1], 0⟩ :=
  ⟨rfl, by decide⟩

/-- C5 (amended): `add_module` never rejects a duplicate — the last
registration of a channel wins unconditionally; an unregistered channel
resolves to nothing (the `by_channel` dict lookup raises `KeyError`), and
a sweep run whose first channel is unregistered fails with that
`KeyError` before any sweep command is issued. -/
theorem C5_registry_overwrite :
    (∀ (r : Registry) (m : Module) (c : ℤ), c ∈ m.channels →
      (add_module r m).by_channel c = some m)
    ∧ (∀ c : ℤ, emptyRegistry.by_channel c = none)
    ∧ (∀ (env : Env) (mm : MMParse), env.mm_read = Except.ok mm →
        mm.channels.length = 2 → env.by_channel mm.channels.headI = none →
        get_raw env = ([], Except.error PyErr.keyError)) := by
  refine ⟨fun r m c hc => by simp [add_module, hc], fun c => rfl, ?_⟩
  intro env mm hmm hlen hnc
  simp [get_raw, hmm, hlen, hnc]

/-- A run in which no channel resolves to a module. -/
def envUnknown : Env := { env0 with by_channel := fun _ => none }

/-- Witness for C5: overwrite at channel 1, and an unresolved channel
aborting the run. -/
theorem C5_registry_overwrite_witness :
    (add_module emptyRegistry ⟨0, 1, [1], 0⟩).by_channel 1
      = some ⟨0, 1, [1], 0⟩
    ∧ get_raw envUnknown = ([], Except.error PyErr.keyError) :=
  ⟨C5_registry_overwrite.1 emptyRegistry ⟨0, 1, [1], 0⟩ 1 (by decide),
   C5_registry_overwrite.2.2 envUnknown ⟨1, [3, 5]⟩ rfl rfl rfl⟩

/-- `pyInt` is the identity on integers: truncation is idempotent. -/
theorem pyInt_intCast (c : ℤ) : pyInt (c : ℚ) = c := by
  simp [pyInt, Rat.num_intCast, Rat.den_intCast]

/-- C7: a coefficient handed to the integration-time command encoder is
first truncated explicitly (`int(coeff)`, line 173), so the encoder never
sees a non-integral value — supplying `q` behaves exactly like supplying
its truncation; and an out-of-range manual-averaging coefficient
(documented range 1-1023) fails with `InvalidParameter` while the
transport trace is still empty, i.e. before any transport call. -/
theorem C7_integration_time_coeff :
    (∀ (adc : ℤ) (mode : AITMode) (q : ℚ),
      setup_integration_time adc mode (some q)
        = setup_integration_time adc mode (some ((pyInt q : ℤ) : ℚ)))
    ∧ (∀ (adc : ℤ) (c : ℤ), (c < 1 ∨ 1023 < c) →
        setup_integration_time adc AITMode.manual (some (c : ℚ))
          = ([], Except.error EncoderError.invalidParameter)) := by
  constructor
  · intro adc mode q
    simp [setup_integration_time, pyInt_intCast]
  · intro adc c h
    simp only [setup_integration_time, Option.map, pyInt_intCast, ait,
      ait_coeff_range]
    rw [if_neg (by omega)]

/-- Witness for C7 at coefficient `2.7` and the out-of-range manual
coefficients `0` and `1024`. -/
theorem C7_integration_time_coeff_witness :
    setup_integration_time 1 AITMode.manual (some ((27 : ℚ) / 10))
      = setup_integration_time 1 AITMode.manual
          (some ((pyInt ((27 : ℚ) / 10) : ℤ) : ℚ))
    ∧ ((0 : ℤ) < 1 ∨ 1023 < (0 : ℤ))
    ∧ setup_integration_time 1 AITMode.manual (some ((0 : ℤ) : ℚ))
        = ([], Except.error EncoderError.invalidParameter)
    ∧ setup_integration_time 1 AITMode.manual (some ((1024 : ℤ) : ℚ))
        = ([], Except.error EncoderError.invalidParameter) :=
  ⟨C7_integration_time_coeff.1 1 AITMode.manual ((27 : ℚ) / 10),
   Or.inl (by decide),
   C7_integration_time_coeff.2 1 0 (Or.inl (by decide)),
   C7_integration_time_coeff.2 1 1024 (Or.inr (by decide))⟩

/-- When the tag never occurs in the input, the tagged-field search finds
no match. -/
theorem occ_false_search_none (tag : List Char) :
    ∀ l, occursIn tag l = false → searchTag tag l = none := by
  intro l
  induction l with
  | nil => intro _; rfl
  | cons c tl ih =>
    intro h
    rw [occursIn, Bool.or_eq_false_iff] at h
    rw [searchTag, if_neg (by simp [h.1])]
    exact ih h.2

/-- C8: a response in which the expected tag (`MM`, resp. `FMT`) is
absent makes the mode/format extraction fail with the corresponding
`ValueError` — no silent default and no partially-populated structure is
returned. -/
theorem C8_missing_tag (response : List Char) :
    (occursIn ['M', 'M'] response = false →
      parse_measurement_mode response
        = Except.error "Measurement Mode (MM) not found.")
    ∧ (occursIn ['F', 'M', 'T'] response = false →
      parse_format_and_mode response
        = Except.error "Measurement Mode (FMT) not found.") := by
  constructor
  · intro h
    simp [parse_measurement_mode, occ_false_search_none _ _ h]
  · intro h
    simp [parse_format_and_mode, occ_false_search_none _ _ h]

/-- Witness for C8 at a response carrying neither tag. -/
theorem C8_missing_tag_witness :
    occursIn ['M', 'M'] "XY12".data = false
    ∧ parse_measurement_mode "XY12".data
        = Except.error "Measurement Mode (MM) not found."
    ∧ parse_format_and_mode "XY12".data
        = Except.error "Measurement Mode (FMT) not found." :=
  ⟨rfl, (C8_missing_tag "XY12".data).1 rfl, (C8_missing_tag "XY12".data).2 rfl⟩

/-- C9: the measurement-mode command for channels `[3,5]` encodes to
`MM1,3,5`, and parsing the synthetic response `MM1,3,5;` recovers exactly
mode 1 with channels `[3, 5]` in order — the parse inverts the
encoding. -/
theorem C9_mm_roundtrip :
    parse_measurement_mode "MM1,3,5;".data = Except.ok ⟨1, [3, 5]⟩
    ∧ mm_message 1 [3, 5] = "MM1,3,5"
    ∧ parse_measurement_mode (mm_message 1 [3, 5] ++ ";").data
        = Except.ok ⟨1, [3, 5]⟩ :=
  ⟨rfl, rfl, rfl⟩

/-- C10: on a registry without conflicting entries, `add_module` leaves
the three indices mutually consistent for the new module — `by_slot` maps
its slot to it, `by_channel` maps each of its channels to it, it is
appended to `by_kind` of its kind — and every entry for other slots,
channels and kinds is unchanged. -/
theorem C10_add_module_consistent (r : Registry) (m : Module)
    (hslot : r.by_slot m.slot_nr = none)
    (hchan : ∀ c ∈ m.channels, r.by_channel c = none) :
    (add_module r m).by_slot m.slot_nr = some m
    ∧ (∀ c ∈ m.channels, (add_module r m).by_channel c = some m)
    ∧ (add_module r m).by_kind m.module_kind
        = r.by_kind m.module_kind ++ [m]
    ∧ (∀ s, s ≠ m.slot_nr → (add_module r m).by_slot s = r.by_slot s)
    ∧ (∀ c, c ∉ m.channels →
        (add_module r m).by_channel c = r.by_channel c)
    ∧ (∀ k, k ≠ m.module_kind → (add_module r m).by_kind k = r.by_kind k) :=
  ⟨by simp [add_module], fun c hc => by simp [add_module, hc],
    by simp [add_module], fun s hs => by simp [add_module, hs],
    fun c hc => by simp [add_module, hc],
    fun k hk => by simp [add_module, hk]⟩

def module0 : Module := ⟨0, 1, [2, 3], 4⟩

/-- Witness for C10: registering `module0` into the empty registry. -/
theorem C10_add_module_consistent_witness :
    emptyRegistry.by_slot module0.slot_nr = none
    ∧ ((add_module emptyRegistry module0).by_slot module0.slot_nr
          = some module0
      ∧ (∀ c ∈ module0.channels,
          (add_module emptyRegistry module0).by_channel c = some module0)
      ∧ (add_module emptyRegistry module0).by_kind module0.module_kind
          = emptyRegistry.by_kind module0.module_kind ++ [module0]
      ∧ (∀ s, s ≠ module0.slot_nr →
          (add_module emptyRegistry module0).by_slot s
            = emptyRegistry.by_slot s)
      ∧ (∀ c, c ∉ module0.channels →
          (add_module emptyRegistry module0).by_channel c
            = emptyRegistry.by_channel c)
      ∧ (∀ k, k ≠ module0.module_kind →
          (add_module emptyRegistry module0).by_kind k
            = emptyRegistry.by_kind k)) :=
  ⟨rfl, C10_add_module_consistent emptyRegistry module0 rfl (fun c _ => rfl)⟩

end B1500
